import Mathlib

/-!
Shallow embedding of the prodmon-logic anomaly-detection pipeline
(src/main.py, src/api/gemini.py, src/api/gemma3.py, src/utils/learn.py,
src/utils/ocr.py, src/utils/cli.py).

Python dictionaries / JSON values are modelled by the inductive `Json`
below; Python floats by `ℚ`; a Python function that can raise an
exception is modelled with `Option` (`none` = an exception propagates).
`datetime.now()` is passed in as an explicit `now` string parameter.
-/

namespace Prodmon

/-- A JSON value / Python object as passed around by the pipeline.
Numbers are modelled as rationals. -/
inductive Json where
  | null : Json
  | bool : Bool → Json
  | num : ℚ → Json
  | str : String → Json
  | arr : List Json → Json
  | obj : List (String × Json) → Json
  deriving Inhabited

namespace Json

/-- First value bound to key `k` (Python dicts never hold duplicate keys,
so first = only occurrence). -/
def lookup (k : String) : Json → Option Json
  | obj kvs => kvs.lookup k
  | _ => none

/-- Python `k in d` membership test for dict keys. -/
def hasKey (k : String) (j : Json) : Bool :=
  (j.lookup k).isSome

/-- Python `d.get(k, default)`. -/
def getD (j : Json) (k : String) (d : Json) : Json :=
  (j.lookup k).getD d

/-- Python `d[k] = v` on a dict: overwrite in place, else append. -/
def setKey (k : String) (v : Json) : Json → Json
  | obj kvs =>
    if kvs.lookup k |>.isSome then
      obj (kvs.map fun kv => if kv.1 = k then (k, v) else kv)
    else
      obj (kvs ++ [(k, v)])
  | j => j

/-- Python truthiness: `None`, `False`, `0`, `""`, `[]`, `{}` are falsy. -/
def truthy : Json → Bool
  | null => false
  | bool b => b
  | num q => q ≠ 0
  | str s => s ≠ ""
  | arr xs => !xs.isEmpty
  | obj kvs => !kvs.isEmpty

end Json

mutual

/-- Structural Boolean equality on `Json`. -/
def Json.beq : Json → Json → Bool
  | .null, .null => true
  | .bool a, .bool b => a == b
  | .num a, .num b => decide (a = b)
  | .str a, .str b => decide (a = b)
  | .arr a, .arr b => Json.beqList a b
  | .obj a, .obj b => Json.beqKVs a b
  | _, _ => false

def Json.beqList : List Json → List Json → Bool
  | [], [] => true
  | x :: xs, y :: ys => Json.beq x y && Json.beqList xs ys
  | _, _ => false

def Json.beqKVs : List (String × Json) → List (String × Json) → Bool
  | [], [] => true
  | (k1, v1) :: xs, (k2, v2) :: ys => decide (k1 = k2) && Json.beq v1 v2 && Json.beqKVs xs ys
  | _, _ => false

end

mutual

theorem Json.beq_iff : ∀ a b : Json, Json.beq a b = true ↔ a = b
  | .null, b => by cases b <;> simp [Json.beq]
  | .bool x, b => by cases b <;> simp [Json.beq]
  | .num x, b => by cases b <;> simp [Json.beq]
  | .str x, b => by cases b <;> simp [Json.beq]
  | .arr xs, b => by
    cases b with
    | arr ys => simp [Json.beq, Json.beqList_iff xs ys]
    | _ => simp [Json.beq]
  | .obj kvs, b => by
    cases b with
    | obj kvs2 => simp [Json.beq, Json.beqKVs_iff kvs kvs2]
    | _ => simp [Json.beq]

theorem Json.beqList_iff : ∀ a b : List Json, Json.beqList a b = true ↔ a = b
  | [], [] => by simp [Json.beqList]
  | [], _ :: _ => by simp [Json.beqList]
  | _ :: _, [] => by simp [Json.beqList]
  | x :: xs, y :: ys => by
    simp [Json.beqList, Json.beq_iff x y, Json.beqList_iff xs ys]

theorem Json.beqKVs_iff : ∀ a b : List (String × Json), Json.beqKVs a b = true ↔ a = b
  | [], [] => by simp [Json.beqKVs]
  | [], _ :: _ => by simp [Json.beqKVs]
  | _ :: _, [] => by simp [Json.beqKVs]
  | (k1, v1) :: xs, (k2, v2) :: ys => by
    simp [Json.beqKVs, Json.beq_iff v1 v2, Json.beqKVs_iff xs ys, and_assoc]

end

instance : DecidableEq Json := fun a b => decidable_of_iff _ (Json.beq_iff a b)

/-! ### Python semantics helpers

Operations of the source that can raise a Python exception are modelled
with `Option`: `none` means the exception propagates to the caller. -/

/-- ASCII lower-casing of one character (`str.lower`, as used on severity
strings, which are ASCII). -/
def lowerChar (c : Char) : Char :=
  if 'A' ≤ c ∧ c ≤ 'Z' then Char.ofNat (c.toNat + 32) else c

/-- `str.lower()` on an ASCII string. -/
def strLower (s : String) : String := String.mk (s.data.map lowerChar)

/-- JSON / Python whitespace characters. -/
def isWs (c : Char) : Bool := c = ' ' || c = '\t' || c = '\n' || c = '\r'

/-- Drop leading whitespace. -/
def dropWs : List Char → List Char
  | c :: cs => if isWs c then dropWs cs else c :: cs
  | [] => []

/-- `str.strip()`: remove surrounding whitespace. -/
def strStrip (s : String) : String :=
  String.mk (dropWs (dropWs s.data.reverse).reverse)

/-- Is `needle` a contiguous substring of `hay`? (`"x" in s` for strings). -/
def subIdx (needle : List Char) : List Char → Option Nat
  | [] => if needle.isEmpty then some 0 else none
  | c :: cs =>
    if needle.isPrefixOf (c :: cs) then some 0
    else (subIdx needle cs).map (· + 1)

def strContainsSub (hay needle : String) : Bool :=
  (subIdx needle.data hay.data).isSome

/-- Python `k in x` (`TypeError` on non-containers is `none`). -/
def pyContains (needle : String) : Json → Option Bool
  | .obj kvs => some ((kvs.lookup needle).isSome)
  | .arr xs => some (xs.any fun x => match x with | .str s => s == needle | _ => false)
  | .str s => some (strContainsSub s needle)
  | _ => none

/-- Python `d.get(k, default)` — only dicts have `.get` (`AttributeError`
otherwise). -/
def pyGet (j : Json) (k : String) (d : Json) : Option Json :=
  match j with
  | .obj kvs => some ((kvs.lookup k).getD d)
  | _ => none

/-- Python `for x in j` — lists yield elements, strings their characters,
dicts their keys; anything else raises `TypeError`. -/
def pyIter : Json → Option (List Json)
  | .arr xs => some xs
  | .str s => some (s.data.map fun c => .str (String.mk [c]))
  | .obj kvs => some (kvs.map fun kv => .str kv.1)
  | _ => none

/-- Expect a Python `str` (e.g. `re.search` raises on non-strings). -/
def pyStr? : Json → Option String
  | .str s => some s
  | _ => none

/-- Python `x.lower()` — strings only. -/
def pyLower : Json → Option String
  | .str s => some (strLower s)
  | _ => none

/-- A value usable in Python numeric arithmetic (`/`, `min`, `max` with
ints): numbers, and booleans as 0/1. -/
def pyNum? : Json → Option ℚ
  | .num q => some q
  | .bool b => some (if b then 1 else 0)
  | _ => none

def takeDigits : List Char → List Char × List Char
  | c :: cs =>
    if c.isDigit then
      let (ds, r) := takeDigits cs
      (c :: ds, r)
    else ([], c :: cs)
  | [] => ([], [])

def digitsToNat (ds : List Char) : ℕ :=
  ds.foldl (fun n c => 10 * n + (c.toNat - 48)) 0

/-- Parse an optional decimal exponent suffix (`e`/`E`, optional sign). -/
def parseExpPart (q : ℚ) (cs : List Char) : Option (ℚ × List Char) :=
  match cs with
  | e :: r =>
    if e = 'e' ∨ e = 'E' then
      let (esign, r1) : ℤ × List Char :=
        match r with
        | '+' :: r2 => (1, r2)
        | '-' :: r2 => (-1, r2)
        | _ => (1, r)
      match r1 with
      | c :: _ =>
        if c.isDigit then
          let (ds, r2) := takeDigits r1
          some (q * (10 : ℚ) ^ (esign * (digitsToNat ds : ℤ)), r2)
        else none
      | [] => none
    else some (q, cs)
  | [] => some (q, [])

/-- Parse the fraction/exponent part after the integer digits. -/
def afterIntPart (sign : ℚ) (ip : ℕ) (cs : List Char) : Option (ℚ × List Char) :=
  match cs with
  | '.' :: r =>
    (match r with
     | c :: _ =>
       if c.isDigit then
         let (ds, r2) := takeDigits r
         parseExpPart (sign * ((ip : ℚ) + (digitsToNat ds : ℚ) / (10 : ℚ) ^ ds.length)) r2
       else none
     | [] => none)
  | _ => parseExpPart (sign * (ip : ℚ)) cs

/-- JSON number grammar: `-? (0 | [1-9][0-9]*) (\.[0-9]+)? ([eE][+-]?[0-9]+)?`. -/
def parseNumber (cs : List Char) : Option (ℚ × List Char) :=
  let (sign, cs1) : ℚ × List Char :=
    match cs with
    | '-' :: r => (-1, r)
    | _ => (1, cs)
  match cs1 with
  | '0' :: r => afterIntPart sign 0 r
  | c :: r =>
    if c.isDigit then
      let (ds, r2) := takeDigits r
      afterIntPart sign (digitsToNat (c :: ds)) r2
    else none
  | [] => none

def hexVal (c : Char) : Option ℕ :=
  if c.isDigit then some (c.toNat - 48)
  else if 'a' ≤ c ∧ c ≤ 'f' then some (c.toNat - 87)
  else if 'A' ≤ c ∧ c ≤ 'F' then some (c.toNat - 55)
  else none

def escChar : Char → Option Char
  | '"' => some '"'
  | '\\' => some '\\'
  | '/' => some '/'
  | 'b' => some (Char.ofNat 8)
  | 'f' => some (Char.ofNat 12)
  | 'n' => some '\n'
  | 'r' => some '\r'
  | 't' => some '\t'
  | _ => none

/-- Body of a JSON string after the opening quote; returns the decoded
characters and the remainder after the closing quote. -/
def parseStringBody : List Char → Option (List Char × List Char)
  | [] => none
  | '"' :: rest => some ([], rest)
  | '\\' :: rest =>
    (match rest with
     | 'u' :: h1 :: h2 :: h3 :: h4 :: r2 => do
       let a ← hexVal h1
       let b ← hexVal h2
       let c ← hexVal h3
       let d ← hexVal h4
       let (s, r3) ← parseStringBody r2
       return (Char.ofNat (((a * 16 + b) * 16 + c) * 16 + d) :: s, r3)
     | c :: r2 => do
       let e ← escChar c
       let (s, r3) ← parseStringBody r2
       return (e :: s, r3)
     | [] => none)
  | c :: rest =>
    if c.toNat < 32 then none   -- json rejects raw control characters
    else do
      let (s, r3) ← parseStringBody rest
      return (c :: s, r3)

/-- Insert an earlier-parsed member in front of the later members, with
Python dict duplicate-key semantics (later value wins, first position
kept). -/
def prependKV (k : String) (v : Json) (kvs : List (String × Json)) : List (String × Json) :=
  match kvs.lookup k with
  | some v2 => (k, v2) :: kvs.filter (fun kv => kv.1 ≠ k)
  | none => (k, v) :: kvs

mutual

/-- Fuel-indexed JSON value parser (`json.loads` grammar). -/
def parseValue : Nat → List Char → Option (Json × List Char)
  | 0, _ => none
  | fuel + 1, cs =>
    match dropWs cs with
    | 't' :: 'r' :: 'u' :: 'e' :: rest => some (.bool true, rest)
    | 'f' :: 'a' :: 'l' :: 's' :: 'e' :: rest => some (.bool false, rest)
    | 'n' :: 'u' :: 'l' :: 'l' :: rest => some (.null, rest)
    | '"' :: rest => do
      let (s, r) ← parseStringBody rest
      return (.str (String.mk s), r)
    | '[' :: rest =>
      (match dropWs rest with
       | ']' :: r => some (.arr [], r)
       | other => do
         let (xs, r) ← parseElems fuel other
         return (.arr xs, r))
    | '{' :: rest =>
      (match dropWs rest with
       | '}' :: r => some (.obj [], r)
       | other => do
         let (kvs, r) ← parseMembers fuel other
         return (.obj kvs, r))
    | other => (parseNumber other).map fun p => (.num p.1, p.2)

/-- Comma-separated array elements up to `]`. -/
def parseElems : Nat → List Char → Option (List Json × List Char)
  | 0, _ => none
  | fuel + 1, cs => do
    let (v, r) ← parseValue fuel cs
    match dropWs r with
    | ',' :: r2 => do
      let (vs, r3) ← parseElems fuel r2
      return (v :: vs, r3)
    | ']' :: r2 => return ([v], r2)
    | _ => none

/-- Comma-separated object members up to `}`. -/
def parseMembers : Nat → List Char → Option (List (String × Json) × List Char)
  | 0, _ => none
  | fuel + 1, cs =>
    match dropWs cs with
    | '"' :: rest => do
      let (k, r) ← parseStringBody rest
      match dropWs r with
      | ':' :: r2 => do
        let (v, r3) ← parseValue fuel r2
        match dropWs r3 with
        | ',' :: r4 => do
          let (kvs, r5) ← parseMembers fuel r4
          return (prependKV (String.mk k) v kvs, r5)
        | '}' :: r4 => return ([(String.mk k, v)], r4)
        | _ => none
      | _ => none
    | _ => none

end

/-- `json.loads`: parse the whole string (surrounding whitespace allowed),
`none` on any parse error. -/
def json_loads (s : String) : Option Json :=
  match parseValue (2 * s.data.length + 2) s.data with
  | some (v, rest) => if (dropWs rest).isEmpty then some v else none
  | none => none

/-- Python `float(x)`: numbers unchanged, booleans to 0/1, strings parsed
as (finite) decimal literals with optional surrounding whitespace;
everything else raises. -/
def pyFloat (j : Json) : Option ℚ :=
  match j with
  | .num q => some q
  | .bool b => some (if b then 1 else 0)
  | .str s =>
    (match parseNumber (dropWs s.data) with
     | some (q, rest) => if (dropWs rest).isEmpty then some q else none
     | none => none)
  | _ => none

/-- Round-half-to-even to an integer (Python `round` on exact values). -/
def roundHalfEven (x : ℚ) : ℤ :=
  let f := ⌊x⌋
  let r := x - f
  if r < 1/2 then f
  else if 1/2 < r then f + 1
  else if Even f then f else f + 1

/-- Python `round(x, 2)`. -/
def pyRound2 (x : ℚ) : ℚ := (roundHalfEven (x * 100) : ℚ) / 100

/-- Sequential effectful map over `Option` (a Python `for` loop that
appends per item; the first raise aborts). -/
def optMapM {β : Type} (f : Json → Option β) : List Json → Option (List β)
  | [] => some []
  | x :: xs => do
    let y ← f x
    let ys ← optMapM f xs
    return y :: ys

/-- Sequential effectful fold over `Option`. -/
def optFoldl {σ : Type} (f : σ → Json → Option σ) : σ → List Json → Option σ
  | acc, [] => some acc
  | acc, x :: xs => do
    let acc2 ← f acc x
    optFoldl f acc2 xs

/-- Sequential effectful fold over a list of screenshot records. -/
def optFoldlShots {σ α : Type} (f : σ → α → Option σ) : σ → List α → Option σ
  | acc, [] => some acc
  | acc, x :: xs => do
    let acc2 ← f acc x
    optFoldlShots f acc2 xs

/-! ### Response Extractor (`src/api/gemini.py` `extract_json_from_response`,
identical in `src/api/gemma3.py`) -/

def idxOfChar (c : Char) : List Char → Option Nat
  | [] => none
  | x :: xs => if x = c then some 0 else (idxOfChar c xs).map (· + 1)

def lastIdxOfChar (c : Char) (cs : List Char) : Option Nat :=
  (idxOfChar c cs.reverse).map (fun i => cs.length - 1 - i)

/-- The span matched by `re.search(r'({[\s\S]*})', response)`: from the
first opening brace to the last closing brace of the string (the regex is
greedy, so given the leftmost viable start it extends to the final
closing brace). `none` when no such span exists. -/
def braceSpan (s : String) : Option String :=
  let cs := s.data
  match lastIdxOfChar '\x7d' cs with
  | none => none
  | some j =>
    match idxOfChar '\x7b' cs with
    | none => none
    | some i =>
      if i < j then some (String.mk ((cs.drop i).take (j - i + 1))) else none

/-- `GeminiAPI.extract_json_from_response` (`src/api/gemini.py` 147-157);
`GemmaAnomalyDetector.extract_json_from_response` (`src/api/gemma3.py`
104-114) is character-for-character identical. -/
def extract_json_from_response (response : String) : Json :=
  match braceSpan response with
  | some json_str =>
    (match json_loads json_str with
     | some v => v
     | none => .obj [("error", .str "Failed to parse JSON from model response")])
  | none => .obj [("error", .str "No JSON found in model response")]

/-- Interior of the first triple-backtick fenced block, optional `json`
tag, whitespace-trimmed (the `r'```(?:json)?\s*([\s\S]*?)\s*```'` shape). -/
def findFencedBlock (s : String) : Option String := do
  let cs := s.data
  let i ← subIdx "```".data cs
  let after := cs.drop (i + 3)
  let after := if "json".data.isPrefixOf after then after.drop 4 else after
  let j ← subIdx "```".data after
  return strStrip (String.mk (after.take j))

/-- Modelled from the spec: §4.2's extraction contract — strategies in
order, first success wins: (1) parse the whole string, (2) parse the
interior of a fenced code block, (3) parse the widest greedy
brace-delimited span, (4) error result carrying the raw text. -/
def specExtract_ordered (response : String) : Json :=
  match json_loads response with
  | some v => v
  | none =>
    match (findFencedBlock response).bind (fun interior => json_loads interior) with
    | some v => v
    | none =>
      match braceSpan response with
      | some span =>
        (match json_loads span with
         | some v => v
         | none => .obj [("error", .str "Failed to parse JSON from model response"),
                         ("raw_response", .str response)])
      | none => .obj [("error", .str "No JSON found in model response"),
                      ("raw_response", .str response)]

/-! ### Response Normalizer (`src/api/gemini.py` 179-328)

`datetime.now().strftime("%Y-%m-%dT%H:%M:%SZ")` is passed in as the
explicit parameter `now`. -/

/-- Match of `re.search(r'(\d{4}-\d{2}-\d{2}T\d{2}:\d{2}:\d{2})', s)` at
the head of the character list. -/
def tsPatAt : List Char → Option (List Char)
  | d1 :: d2 :: d3 :: d4 :: '-' :: m1 :: m2 :: '-' :: a1 :: a2 :: 'T' ::
      h1 :: h2 :: ':' :: n1 :: n2 :: ':' :: s1 :: s2 :: _ =>
    if [d1, d2, d3, d4, m1, m2, a1, a2, h1, h2, n1, n2, s1, s2].all Char.isDigit then
      some [d1, d2, d3, d4, '-', m1, m2, '-', a1, a2, 'T', h1, h2, ':', n1, n2, ':', s1, s2]
    else none
  | _ => none

/-- Leftmost match of the timestamp pattern. -/
def findTsMatch : List Char → Option String
  | [] => none
  | c :: cs =>
    match tsPatAt (c :: cs) with
    | some m => some (String.mk m)
    | none => findTsMatch cs

/-- Timestamp resolution (`src/api/gemini.py` 188-193 and 258-263): a
`YYYY-MM-DDTHH:MM:SS` stamp found in `screenshot_filename` (suffixed
with `Z`), else the current process time. -/
def timestamp_from_filename (response : Json) (now : String) : Option String := do
  let fnJ ← pyGet response "screenshot_filename" (.str "")
  let fn ← pyStr? fnJ
  return (match findTsMatch fn.data with
          | some t => t ++ "Z"
          | none => now)

/-- Per-anomaly confidence resolution (`src/api/gemini.py` 206-220, and
identically 271-285): an explicit `confidence` field is used as found;
otherwise the lower-cased `severity` is mapped
(high 0.95 / medium 0.75 / low 0.55 / other 0.5, with missing severity
defaulting to `"Medium"`), and a `confidence_score` on the containing
response overwrites the severity-derived value with
`min(max(score / 100, 0), 1)`. -/
def resolve_confidence (anomaly response : Json) : Option Json := do
  let hasConf ← pyContains "confidence" anomaly
  if hasConf then
    pyGet anomaly "confidence" .null
  else do
    let sevJ ← pyGet anomaly "severity" (.str "Medium")
    let sev ← pyLower sevJ
    let base : ℚ :=
      if sev = "high" then 95/100
      else if sev = "medium" then 75/100
      else if sev = "low" then 55/100
      else 50/100
    let hasScore ← pyContains "confidence_score" response
    if hasScore then do
      let scoreJ ← pyGet response "confidence_score" (.num 50)
      let score ← pyNum? scoreJ
      return .num (min (max (score / 100) 0) 1)
    else
      return .num base

/-- One formatted anomaly entry (`src/api/gemini.py` 222-227 / 287-292). -/
def format_anomaly (anomaly response : Json) (ts : String) : Option Json := do
  let c ← resolve_confidence anomaly response
  let ty ← pyGet anomaly "type" (.str "Unknown")
  let ex ← pyGet anomaly "explanation" (.str "No explanation provided")
  let cq ← pyFloat c
  return .obj [("type", ty), ("explanation", ex),
               ("confidence", .num (pyRound2 cq)), ("timestamp", .str ts)]

/-- `GeminiAPI.standardize_single_response` (`src/api/gemini.py` 179-236). -/
def standardize_single_response (response : Json) (role : String) (now : String) : Option Json := do
  let hasError ← pyContains "error" response
  if hasError then do
    let msg ← response.lookup "error"
    return .obj [("status", .str "error"), ("message", msg)]
  else do
    let ts ← timestamp_from_filename response now
    let d ← pyGet response "is_anomalous" (.bool false)
    let anomaly_detected ← pyGet response "anomaly_detected" d
    let baseline_role ← pyGet response "baseline_role" (.str role)
    let anomaliesJ ← pyGet response "anomalies" (.arr [])
    let anomalies ← pyIter anomaliesJ
    let formatted ← optMapM (fun a => format_anomaly a response ts) anomalies
    return .obj [("status", .str "success"),
      ("analysis", .obj [
        ("anomaly_detected", anomaly_detected),
        ("baseline_role", baseline_role),
        ("anomalies", .arr formatted)])]

/-- `GeminiAPI._add_timestamps_to_anomalies` (`src/api/gemini.py` 315-328). -/
def add_timestamps_to_anomalies (anomalies : Json) (now : String) : Option (List Json) := do
  let l ← pyIter anomalies
  optMapM (fun anomaly => do
    let hasTs ← pyContains "timestamp" anomaly
    if !hasTs then
      match anomaly with
      | .obj kvs => pure (Json.setKey "timestamp" (.str now) (.obj kvs))
      | _ => none
    else
      pure anomaly) l

/-- Loop body of the batch branch of `format_standardized_output`
(`src/api/gemini.py` 254-292): the anomalies contributed by one
per-screenshot result — empty when the result is not flagged anomalous
by either flag (the `continue`). -/
def process_batch_result (result : Json) (now : String) : Option (List Json) := do
  let f1 ← pyGet result "is_anomalous" (.bool false)
  let skip ←
    if !f1.truthy then do
      let f2 ← pyGet result "anomaly_detected" (.bool false)
      pure (!f2.truthy)
    else
      pure false
  if skip then
    return []
  else do
    let ts ← timestamp_from_filename result now
    let hasAnoms ← pyContains "anomalies" result
    if hasAnoms then do
      let anomsJ ← pyGet result "anomalies" (.arr [])
      let anoms ← pyIter anomsJ
      optMapM (fun a => format_anomaly a result ts) anoms
    else
      return []

/-- `GeminiAPI.format_standardized_output` (`src/api/gemini.py` 238-313). -/
def format_standardized_output (analysis_results : Json) (now : String) : Option Json := do
  let hasError ← pyContains "error" analysis_results
  if hasError then do
    let msg ← analysis_results.lookup "error"
    return .obj [("status", .str "error"), ("message", msg)]
  else do
    let hasResults ← pyContains "results" analysis_results
    if hasResults then do
      let resultsJ ← pyGet analysis_results "results" (.arr [])
      let results ← pyIter resultsJ
      let chunks ← optMapM (fun r => process_batch_result r now) results
      let ad ← pyGet analysis_results "overall_anomalous" (.bool false)
      let br ← pyGet analysis_results "role_analyzed" (.str "unknown")
      return .obj [("status", .str "success"),
        ("analysis", .obj [
          ("anomaly_detected", ad),
          ("baseline_role", br),
          ("anomalies", .arr chunks.flatten)])]
    else do
      let ad ← pyGet analysis_results "anomaly_detected" (.bool false)
      let br ← pyGet analysis_results "baseline_role" (.str "unknown")
      let anomsJ ← pyGet analysis_results "anomalies" (.arr [])
      let withTs ← add_timestamps_to_anomalies anomsJ now
      return .obj [("status", .str "success"),
        ("analysis", .obj [
          ("anomaly_detected", ad),
          ("baseline_role", br),
          ("anomalies", .arr withTs)])]

/-! ### Detector backends (`src/api/gemini.py`, `src/api/gemma3.py`)

The network / subprocess model call is external; it is passed in as the
oracle `callModel : String → String` (the `generate(prompt) -> string`
capability). The prohibited-activities CSV file read is likewise passed
in as its parsed row list. -/

/-- One OCR screenshot record, as produced by `src/utils/ocr.py`
(filename / timestamp / ocr_text / file_path). -/
structure ScreenshotData where
  filename : String
  timestamp : ℚ
  ocr_text : String
  file_path : String
deriving DecidableEq

/-- Rows of the prohibited-activities CSV as dictionaries. -/
abbrev CsvData := List (List (String × String))

/-- `format_csv_for_prompt` (identical in both backend classes). -/
def format_csv_for_prompt (csv_data : CsvData) : String :=
  if csv_data.isEmpty then "No data available"
  else
    String.intercalate "\n"
      (((List.range csv_data.length).zip csv_data).map fun p =>
        "Entry " ++ toString (p.1 + 1) ++ ":\n" ++
          String.join (p.2.map fun kv => "  - " ++ kv.1 ++ ": " ++ kv.2 ++ "\n"))

/-- `GeminiAPI.create_prompt_for_ocr` (`src/api/gemini.py` 93-137). -/
def create_prompt_for_ocr_gemini (prohibited_data : CsvData)
    (screenshot_data : ScreenshotData) (role : String) : String :=
  let prohibited_formatted := format_csv_for_prompt prohibited_data
  "\n        You are an anomaly detection system analyzing desktop screenshots for productivity monitoring.\n\n        JOB ROLE: "
    ++ role ++ " should exclude " ++ prohibited_formatted
    ++ "\n        BASELINE EXPECTATIONS: Normal behavior includes role-specific applications and workflows\n\n        SCREENSHOT DATA:\n        • Filename: "
    ++ screenshot_data.filename
    ++ "\n        • Extracted text: \"" ++ screenshot_data.ocr_text
    ++ "\"\n\n        ANALYSIS TASK:\n        1. Detect deviations from " ++ role
    ++ " baseline behavior\n        2. Focus on these anomaly types:\n           - Unusual Task Activity\n           - Unusual Interactions\n           - Irregular Pauses\n           - Atypical Interaction Patterns\n           - General Behavioral Outliers\n        3. For each detected anomaly:\n           - Specify the anomaly type\n           - Provide concise explanation (include evidence)\n           - Assign confidence (0.0-1.0)\n\n        OUTPUT REQUIREMENTS:\n        Return valid JSON with this structure:\n        \x7b\n            \"anomaly_detected\": true/false,\n            \"baseline_role\": \""
    ++ role
    ++ "\",\n            \"anomalies\": [\n                \x7b\n                    \"type\": \"anomaly category\",\n                    \"explanation\": \"clear, evidence-based reason\",\n                    \"confidence\": 0.0-1.0\n                \x7d\n            ]\n        \x7d\n        "

/-- `GemmaAnomalyDetector.create_prompt_for_ocr` (`src/api/gemma3.py` 45-88). -/
def create_prompt_for_ocr_gemma (prohibited_data : CsvData)
    (screenshot_data : ScreenshotData) (role : String) : String :=
  let prohibited_formatted := format_csv_for_prompt prohibited_data
  "\n        You are an anomaly detection system analyzing user behavior from screenshots.\n        \n        PROHIBITED ACTIVITIES (examples of anomalous behavior):\n        "
    ++ prohibited_formatted
    ++ "\n        \n        JOB ROLE: " ++ role
    ++ "\n        \n        SCREENSHOT DATA:\n        Filename: " ++ screenshot_data.filename
    ++ "\n        Text extracted from screenshot:\n        \"" ++ screenshot_data.ocr_text
    ++ "\"\n        \n        Task: Analyze the screenshot text and identify any anomalies by checking for prohibited activities.\n        Consider the context of a "
    ++ role
    ++ " role - absence of prohibited activities is considered normal baseline behavior.\n        \n        For each detected anomaly, provide:\n        1. The type of anomaly (Unusual Task, Unusual Interaction, Irregular Activity, Unauthorized Access, or Other)\n        2. A detailed explanation of why it's considered anomalous\n        3. The severity level (Low, Medium, High)\n        \n        Format your response as a valid JSON object with the following structure:\n        \x7b\n            \"anomalies\": [\n                \x7b\n                    \"type\": \"anomaly type\",\n                    \"explanation\": \"detailed explanation\",\n                    \"severity\": \"severity level\",\n                    \"evidence\": \"specific text that indicates the anomaly\"\n                \x7d\n            ],\n            \"is_anomalous\": true/false,\n            \"confidence_score\": 0-100,\n            \"role_specific_insights\": \"insights specific to the "
    ++ role
    ++ " role\"\n        \x7d\n        "

/-- `GeminiAPI.analyze_screenshot_ocr` (`src/api/gemini.py` 159-177). -/
def gemini_analyze_screenshot_ocr (screenshot_data : ScreenshotData)
    (prohibited_data : CsvData) (role : String) (callModel : String → String) : Json :=
  let prompt := create_prompt_for_ocr_gemini prohibited_data screenshot_data role
  let response := callModel prompt
  let result := extract_json_from_response response
  Json.setKey "screenshot_filename" (.str screenshot_data.filename) result

/-- `GemmaAnomalyDetector.analyze_screenshot_ocr` (`src/api/gemma3.py`
116-135); also attaches `screenshot_path`. -/
def gemma_analyze_screenshot_ocr (screenshot_data : ScreenshotData)
    (prohibited_data : CsvData) (role : String) (callModel : String → String) : Json :=
  let prompt := create_prompt_for_ocr_gemma prohibited_data screenshot_data role
  let response := callModel prompt
  let result := extract_json_from_response response
  Json.setKey "screenshot_path" (.str screenshot_data.file_path)
    (Json.setKey "screenshot_filename" (.str screenshot_data.filename) result)

/-- The per-result anomalous test of the Gemma batch loop
(`src/api/gemma3.py` 146, 153): only the legacy `is_anomalous` flag. -/
def gemma_flag (r : Json) : Option Bool := do
  let v ← pyGet r "is_anomalous" (.bool false)
  pure v.truthy

/-- The per-result anomalous test of the Gemini batch loop
(`src/api/gemini.py` 379, 387): `is_anomalous or anomaly_detected`,
short-circuiting like Python `or`. -/
def gemini_flag (r : Json) : Option Bool := do
  let v1 ← pyGet r "is_anomalous" (.bool false)
  if v1.truthy then pure true
  else do
    let v2 ← pyGet r "anomaly_detected" (.bool false)
    pure v2.truthy

/-- `sum(1 for r in results if <flag>)`. -/
def count_flagged (results : List Json) (f : Json → Option Bool) : Option ℕ :=
  optFoldl (fun n r => do
    let b ← f r
    pure (n + if b then 1 else 0)) 0 results

/-- `GemmaAnomalyDetector.analyze_screenshots_with_ocr`
(`src/api/gemma3.py` 137-155). -/
def gemma_analyze_screenshots_with_ocr (screenshots : List ScreenshotData)
    (prohibited_data : CsvData) (role : String) (callModel : String → String) : Option Json := do
  let acc ← optFoldlShots (fun (acc : List Json × Bool) s => do
      let result := gemma_analyze_screenshot_ocr s prohibited_data role callModel
      let flag ← gemma_flag result
      pure (acc.1 ++ [result], acc.2 || flag)) (([], false) : List Json × Bool) screenshots
  let cnt ← count_flagged acc.1 gemma_flag
  return .obj [("results", .arr acc.1),
    ("overall_anomalous", .bool acc.2),
    ("screenshot_count", .num (screenshots.length : ℚ)),
    ("anomalous_screenshot_count", .num (cnt : ℚ)),
    ("role_analyzed", .str role)]

/-- `GeminiAPI.analyze_screenshots_with_ocr` (`src/api/gemini.py`
370-389): same loop, but testing both flags. -/
def gemini_analyze_screenshots_with_ocr (screenshots : List ScreenshotData)
    (prohibited_data : CsvData) (role : String) (callModel : String → String) : Option Json := do
  let acc ← optFoldlShots (fun (acc : List Json × Bool) s => do
      let result := gemini_analyze_screenshot_ocr s prohibited_data role callModel
      let flag ← gemini_flag result
      pure (acc.1 ++ [result], acc.2 || flag)) (([], false) : List Json × Bool) screenshots
  let cnt ← count_flagged acc.1 gemini_flag
  return .obj [("results", .arr acc.1),
    ("overall_anomalous", .bool acc.2),
    ("screenshot_count", .num (screenshots.length : ℚ)),
    ("anomalous_screenshot_count", .num (cnt : ℚ)),
    ("role_analyzed", .str role)]

/-! ### Rule Store (`src/utils/learn.py` `update_rules`,
`load_merged_rules`)

The rules directory is modelled as an in-memory map from file paths to
their (well-formed) parsed JSON documents. -/

/-- The rules directory: path ↦ parsed JSON document. -/
abbrev FS := List (String × Json)

/-- Write (create or overwrite) one document. -/
def fsWrite (fs : FS) (path : String) (d : Json) : FS :=
  if (fs.lookup path).isSome then
    fs.map fun pv => if pv.1 = path then (path, d) else pv
  else
    fs ++ [(path, d)]

/-- Three-tier target-document resolution (`src/utils/learn.py` 63-70). -/
def rules_file_path (role company : Option String) : String :=
  match role, company with
  | some r, some c => "rules/" ++ r ++ "/" ++ c ++ ".json"
  | some r, none => "rules/" ++ r ++ "/baseline.json"
  | none, _ => "rules/baseline.json"

/-- `update_rules` (`src/utils/learn.py` 62-84): read the target document
(creating a fresh `{context, description, rules: []}` document when the
file does not exist), `setdefault("rules", []).append(rule)`, write back.
`none` models the raise when an existing document is not a dict or its
`rules` entry is not a list. -/
def update_rules (rule : Json) (role company : Option String) (fs : FS) : Option (String × FS) :=
  let rules_path := rules_file_path role company
  let rules_data : Json :=
    match fs.lookup rules_path with
    | some d => d
    | none => .obj [("context", .str (role.getD "baseline")), ("description", .str ""),
                    ("rules", .arr [])]
  match rules_data with
  | .obj kvs =>
    (match kvs.lookup "rules" with
     | some (.arr rs) =>
       some (rules_path, fsWrite fs rules_path (Json.setKey "rules" (.arr (rs ++ [rule])) (.obj kvs)))
     | some _ => none
     | none =>
       some (rules_path, fsWrite fs rules_path (.obj (kvs ++ [("rules", .arr [rule])]))))
  | _ => none

/-- One scope of `load_merged_rules`: extend the accumulated lists with
the document's `allowed` and `prohibited` entries; a missing file is
skipped. -/
def read_scope_lists (fs : FS) (path : String) (acc : List Json × List Json) :
    Option (List Json × List Json) :=
  match fs.lookup path with
  | none => some acc
  | some data => do
    let aJ ← pyGet data "allowed" (.arr [])
    let al ← pyIter aJ
    let pJ ← pyGet data "prohibited" (.arr [])
    let pl ← pyIter pJ
    some (acc.1 ++ al, acc.2 ++ pl)

/-- `load_merged_rules` (`src/utils/learn.py` 146-176): global baseline,
then role baseline, then company document; reads only the `allowed` and
`prohibited` arrays of each document. -/
def load_merged_rules (role company : Option String) (fs : FS) : Option Json := do
  let acc1 ← read_scope_lists fs "rules/baseline.json" ([], [])
  let acc2 ←
    match role with
    | some r => read_scope_lists fs ("rules/" ++ r ++ "/baseline.json") acc1
    | none => some acc1
  let acc3 ←
    match role, company with
    | some r, some c => read_scope_lists fs ("rules/" ++ r ++ "/" ++ c ++ ".json") acc2
    | _, _ => some acc2
  return .obj [("allowed", .arr acc3.1), ("prohibited", .arr acc3.2)]

/-! ### Main entry point (`src/main.py`)

`main` saves the value of `process_single_screenshot` /
`process_screenshots_folder` (the raw OCR records) and then runs the
learning section; any exception inside the surrounding `try` is caught
at the bottom and turned into `sys.exit(1)`.  The LLM calls of the
learning loop (`get_relevant_words_from_ocr` and `learn_unknown`'s
`get_rule_from_llm`) are model-backed and passed in as oracles: an
`Except Unit` error means that call raised. -/

/-- `os.path.basename`. -/
def basename (p : String) : String :=
  match lastIdxOfChar '/' p.data with
  | some i => String.mk (p.data.drop (i + 1))
  | none => p

/-- `process_single_screenshot` (`src/utils/ocr.py` 85-99); the OCR text
and the file mtime come from external collaborators and are passed in. -/
def process_single_screenshot (image_path : String) (ocr_text : String) (mtime : ℚ) : Json :=
  .obj [("filename", .str (basename image_path)),
        ("timestamp", .num mtime),
        ("ocr_text", .str ocr_text),
        ("file_path", .str image_path)]

/-- `process_screenshots_folder` (`src/utils/ocr.py` 51-83): one raw
record per image file. -/
def process_screenshots_folder (shots : List (String × String × ℚ)) : Json :=
  .arr (shots.map fun s => process_single_screenshot s.1 s.2.1 s.2.2)

/-- Outcome of one single-mode `main` run: the JSON written by
`save_output` (which happens before the learning section), the process
exit code, the `(item, rule)` pairs actually learned, and the final
state of the rules directory. -/
structure MainSingleResult where
  saved : Json
  exitCode : Nat
  learned : List (String × Json)
  fs : FS
deriving DecidableEq

/-- Keep the first occurrence of each element (models iterating the
`relevant_items` set in insertion order). -/
def dedup_keep_first : List String → List String
  | [] => []
  | x :: xs => x :: dedup_keep_first (xs.filter (· ≠ x))
termination_by l => l.length
decreasing_by
  simp only [List.length_cons]
  exact Nat.lt_succ_of_le (List.length_filter_le _ _)

/-- The `for unknown in unknowns` loop of `main` (`src/main.py`
129-132): each iteration calls `learn_unknown` = LLM classification +
`update_rules`; an exception propagates to the outer handler
(exit code 1), abandoning the remaining unknowns. -/
def learn_loop (classify : String → Except Unit Json) (role : String) (company : Option String) :
    FS → List (String × Json) → List String → Nat × List (String × Json) × FS
  | fs, learned, [] => (0, learned, fs)
  | fs, learned, u :: rest =>
    match classify u with
    | .error _ => (1, learned, fs)
    | .ok rule =>
      match update_rules rule (some role) company fs with
      | none => (1, learned, fs)
      | some (_, fs2) => learn_loop classify role company fs2 (learned ++ [(u, rule)]) rest

/-- OCR text collection of single mode (`src/main.py` 89-96). -/
def collect_ocr_texts_single (result : Json) : Option (List Json) := do
  let h1 ← pyContains "ocr_text" result
  if h1 then do
    let v ← result.lookup "ocr_text"
    pure [v]
  else do
    let h2 ← pyContains "screenshot" result
    let h2b ←
      if h2 then do
        let sc ← result.lookup "screenshot"
        pyContains "ocr_text" sc
      else pure false
    if h2b then do
      let sc ← result.lookup "screenshot"
      let v ← sc.lookup "ocr_text"
      pure [v]
    else do
      let h3 ← pyContains "analysis" result
      let h3b ←
        if h3 then do
          let an ← result.lookup "analysis"
          pyContains "ocr_text" an
        else pure false
      if h3b then do
        let an ← result.lookup "analysis"
        let v ← an.lookup "ocr_text"
        pure [v]
      else pure []

/-- `known_items` collection (`src/main.py` 119-126): read
`rules/<role>/baseline.json` if present and collect
`rule.get('item') or rule.get('keyword')` over
`rules_data.get('rules', rules_data.get('allowed', []))`. -/
def collect_known_items (role : String) (fs : FS) : Option (List Json) :=
  match fs.lookup ("rules/" ++ role ++ "/baseline.json") with
  | none => some []
  | some data => do
    let dAllowed ← pyGet data "allowed" (.arr [])
    let rulesJ ← pyGet data "rules" dAllowed
    let rules ← pyIter rulesJ
    optMapM (fun rule => do
      let it ← pyGet rule "item" .null
      if it.truthy then pure it
      else pyGet rule "keyword" .null) rules

/-- The learning section of `main` (`src/main.py` 85-133) run on the
already-saved result. Failures of `get_relevant_words_from_ocr` are
caught per OCR text (`src/main.py` 109-116); everything else that
raises reaches the outer handler and exits with code 1. -/
def main_learning_single (saved : Json) (role : String) (company : Option String)
    (relevantOracle : Json → Except Unit (List String))
    (classify : String → Except Unit Json) (fs : FS) : MainSingleResult :=
  match collect_ocr_texts_single saved with
  | none => { saved, exitCode := 1, learned := [], fs }
  | some texts =>
    let relevant_items := dedup_keep_first
      ((texts.map fun t =>
        match relevantOracle t with
        | .ok ws => ws
        | .error _ => []).flatten)
    match collect_known_items role fs with
    | none => { saved, exitCode := 1, learned := [], fs }
    | some known =>
      let isKnown := fun (item : String) =>
        known.any fun k => match k with | .str s => s == item | _ => false
      let unknowns := relevant_items.filter fun item => item ≠ "" ∧ ¬ (isKnown item = true)
      let r := learn_loop classify role company fs [] unknowns
      { saved, exitCode := r.1, learned := r.2.1, fs := r.2.2 }

/-- One full single-mode `main` run (`src/main.py` 69-137): the raw OCR
record is computed, saved (`save_output`, line 83), and then the
learning section runs. -/
def main_single_run (image_path ocr_text : String) (mtime : ℚ) (role : String)
    (company : Option String) (relevantOracle : Json → Except Unit (List String))
    (classify : String → Except Unit Json) (fs : FS) : MainSingleResult :=
  let result := process_single_screenshot image_path ocr_text mtime
  main_learning_single result role company relevantOracle classify fs

/-! ### Statement-level observations used by the theorems below -/

/-- The exact dictionary shape returned by both backends'
`analyze_screenshots_with_ocr`. -/
def mk_batch_results (rs : List Json) (ov : Json) (sc ac : ℚ) (ra : String) : Json :=
  .obj [("results", .arr rs), ("overall_anomalous", ov), ("screenshot_count", .num sc),
        ("anomalous_screenshot_count", .num ac), ("role_analyzed", .str ra)]

/-- A per-screenshot result is flagged by the legacy flag:
`result.get("is_anomalous", False)` is truthy. -/
def legacy_flagged (r : Json) : Bool := (Json.getD r "is_anomalous" (.bool false)).truthy

/-- A per-screenshot result is flagged by either the legacy or the new
flag. -/
def either_flagged (r : Json) : Bool :=
  legacy_flagged r || (Json.getD r "anomaly_detected" (.bool false)).truthy

/-- The documented severity-to-confidence mapping, case-insensitive. -/
def severity_to_confidence (sev : String) : ℚ :=
  if strLower sev = "high" then 95/100
  else if strLower sev = "medium" then 75/100
  else if strLower sev = "low" then 55/100
  else 50/100

/-- The anomalies list of a canonical success result. -/
def analysis_anomalies (out : Json) : List Json :=
  match (out.lookup "analysis").bind (Json.lookup "anomalies") with
  | some (.arr l) => l
  | _ => []

/-- The `anomaly_detected` field of a canonical success result. -/
def analysis_anomaly_detected (out : Json) : Option Json :=
  (out.lookup "analysis").bind (Json.lookup "anomaly_detected")

/-- The raw anomalies array of a model response. -/
def input_anomalies (resp : Json) : List Json :=
  match resp.lookup "anomalies" with
  | some (.arr l) => l
  | _ => []

/-- No anomaly entry of the response carries an explicit `confidence`
field. -/
def no_explicit_confidence (resp : Json) : Prop :=
  ∀ a ∈ input_anomalies resp, Json.hasKey "confidence" a = false

/-! ### Claim theorems -/

/-- C1: `main` (src/main.py 75-83) saves the value of
`process_single_screenshot` — the raw OCR record with keys
filename / timestamp / ocr_text / file_path — and not a canonical
analysis result: the saved JSON has no `status` and no `analysis` key,
while every output of `standardize_single_response` (the pipeline's
normalizer, reachable only through the never-called `process_single_mode`)
carries a `status` key. Evaluated at a concrete run. -/
theorem main_output_is_raw_ocr_record :
    (main_single_run "shots/img1.png" "some ocr text" 100 "developer" none
        (fun _ => .ok []) (fun _ => .error ()) []).saved =
      process_single_screenshot "shots/img1.png" "some ocr text" 100 ∧
    process_single_screenshot "shots/img1.png" "some ocr text" 100 =
      .obj [("filename", .str "img1.png"), ("timestamp", .num 100),
            ("ocr_text", .str "some ocr text"), ("file_path", .str "shots/img1.png")] ∧
    Json.hasKey "status"
      (process_single_screenshot "shots/img1.png" "some ocr text" 100) = false ∧
    Json.hasKey "analysis"
      (process_single_screenshot "shots/img1.png" "some ocr text" 100) = false ∧
    standardize_single_response
        (.obj [("anomaly_detected", .bool false)]) "developer" "2024-01-01T00:00:00Z" =
      some (.obj [("status", .str "success"),
        ("analysis", .obj [("anomaly_detected", .bool false),
          ("baseline_role", .str "developer"), ("anomalies", .arr [])])]) := by
  refine ⟨?_, ?_, ?_, ?_, ?_⟩ <;> with_unfolding_all decide

/-- C2: a rule appended by `update_rules` goes into the flat `rules`
array of the target document, but `load_merged_rules` for the same scope
reads only the `allowed` and `prohibited` arrays, so the appended rule is
absent from every subsequent merged load: starting from an empty rules
directory, appending a Discord rule for role `developer` and then
merge-loading that role yields empty `allowed` and `prohibited` lists. -/
theorem appended_rule_invisible_to_merged_load :
    update_rules (.obj [("type", .str "allowed"), ("item", .str "Discord")])
        (some "developer") none [] =
      some ("rules/developer/baseline.json",
        [("rules/developer/baseline.json",
          .obj [("context", .str "developer"), ("description", .str ""),
                ("rules", .arr [.obj [("type", .str "allowed"), ("item", .str "Discord")]])])]) ∧
    load_merged_rules (some "developer") none
        [("rules/developer/baseline.json",
          .obj [("context", .str "developer"), ("description", .str ""),
                ("rules", .arr [.obj [("type", .str "allowed"), ("item", .str "Discord")]])])] =
      some (.obj [("allowed", .arr []), ("prohibited", .arr [])]) := by
  exact ⟨by with_unfolding_all decide, by with_unfolding_all decide⟩

/-- C9: a failing `learn_unknown` call (here: the classification oracle
raising on every term) reaches the outer exception handler of `main`
(src/main.py 135-137): the process exits with code 1, no unknown is
learned (the remaining items are abandoned), and the rules directory is
unchanged — while a failing `get_relevant_words_from_ocr` call is indeed
caught per item (src/main.py 115-116) and the run exits 0. The analysis
output saved before the learning section is intact in both runs. -/
theorem learn_failure_aborts_and_exits_nonzero :
    main_single_run "shots/a.png" "discord zoom" 100 "developer" none
        (fun _ => .ok ["Discord", "Zoom"]) (fun _ => .error ()) [] =
      { saved := .obj [("filename", .str "a.png"), ("timestamp", .num 100),
          ("ocr_text", .str "discord zoom"), ("file_path", .str "shots/a.png")],
        exitCode := 1, learned := [], fs := [] } ∧
    main_single_run "shots/a.png" "discord zoom" 100 "developer" none
        (fun _ => .error ()) (fun _ => .error ()) [] =
      { saved := .obj [("filename", .str "a.png"), ("timestamp", .num 100),
          ("ocr_text", .str "discord zoom"), ("file_path", .str "shots/a.png")],
        exitCode := 0, learned := [], fs := [] } := by
  exact ⟨by with_unfolding_all decide, by with_unfolding_all decide⟩

/-- C3 counterexample: on a response whose JSON sits inside a fenced
block with prose around it, the spec's ordered strategy (fenced-block
detection before brace-scanning) extracts the object, but the source's
`extract_json_from_response` — which only parses the greedy brace span —
returns a parse error: the strategies are not tried in the claimed
order. -/
theorem fenced_block_not_tried_counterexample :
    specExtract_ordered "Sure! ```json\n\x7b\"a\": 1\x7d\n``` hope that helps \x7d" =
      .obj [("a", .num 1)] ∧
    extract_json_from_response "Sure! ```json\n\x7b\"a\": 1\x7d\n``` hope that helps \x7d" =
      .obj [("error", .str "Failed to parse JSON from model response")] ∧
    extract_json_from_response "Sure! ```json\n\x7b\"a\": 1\x7d\n``` hope that helps \x7d" ≠
      specExtract_ordered "Sure! ```json\n\x7b\"a\": 1\x7d\n``` hope that helps \x7d" := by
  have h1 : specExtract_ordered "Sure! ```json\n\x7b\"a\": 1\x7d\n``` hope that helps \x7d" =
      .obj [("a", .num 1)] := by with_unfolding_all decide
  have h2 : extract_json_from_response "Sure! ```json\n\x7b\"a\": 1\x7d\n``` hope that helps \x7d" =
      .obj [("error", .str "Failed to parse JSON from model response")] := by
    with_unfolding_all decide
  refine ⟨h1, h2, ?_⟩
  rw [h1, h2]
  decide

/-- C4 counterexample: an anomaly with the explicit confidence 2.5 is
normalized with confidence 2.5 — explicit per-anomaly confidence fields
are rounded but not clamped, so the produced value lies outside
`[0, 1]`. -/
theorem explicit_confidence_not_clamped_counterexample :
    standardize_single_response
        (.obj [("anomalies", .arr [.obj [("confidence", .num (5/2))]])])
        "developer" "2024-01-01T00:00:00Z" =
      some (.obj [("status", .str "success"),
        ("analysis", .obj [("anomaly_detected", .bool false),
          ("baseline_role", .str "developer"),
          ("anomalies", .arr [.obj [("type", .str "Unknown"),
            ("explanation", .str "No explanation provided"),
            ("confidence", .num (5/2)),
            ("timestamp", .str "2024-01-01T00:00:00Z")]])])]) ∧
    ¬ ((5 : ℚ)/2 ≤ 1) := by
  exact ⟨by with_unfolding_all decide, by norm_num⟩

/-- C5 counterexample: an anomaly with no confidence and no severity (and
no response-level confidence_score) resolves to 0.75, because the source
defaults a missing severity to `"Medium"` — not to the claimed 0.5. -/
theorem missing_severity_defaults_medium_counterexample :
    standardize_single_response (.obj [("anomalies", .arr [.obj []])])
        "developer" "2024-01-01T00:00:00Z" =
      some (.obj [("status", .str "success"),
        ("analysis", .obj [("anomaly_detected", .bool false),
          ("baseline_role", .str "developer"),
          ("anomalies", .arr [.obj [("type", .str "Unknown"),
            ("explanation", .str "No explanation provided"),
            ("confidence", .num (75/100)),
            ("timestamp", .str "2024-01-01T00:00:00Z")]])])]) ∧
    (75 : ℚ)/100 ≠ 50/100 := by
  exact ⟨by with_unfolding_all decide, by norm_num⟩

/-- C7 counterexample: when extraction fails (no brace span at all), the
error result carries only an `error` message — no `raw_response` field —
and the caller surfaces it as `{status, message}` without the raw text. -/
theorem extraction_error_lacks_raw_response_counterexample :
    extract_json_from_response "hello there" =
      .obj [("error", .str "No JSON found in model response")] ∧
    Json.hasKey "raw_response" (extract_json_from_response "hello there") = false ∧
    standardize_single_response (extract_json_from_response "hello there")
        "developer" "2024-01-01T00:00:00Z" =
      some (.obj [("status", .str "error"),
        ("message", .str "No JSON found in model response")]) ∧
    Json.hasKey "raw_response"
      (.obj [("status", .str "error"),
             ("message", .str "No JSON found in model response")]) = false := by
  refine ⟨?_, ?_, ?_, ?_⟩ <;> with_unfolding_all decide

/-- C8 counterexample: on the same single-screenshot batch whose model
response sets only the new `anomaly_detected` flag, the Gemma backend
reports `overall_anomalous = false` and count 0 (it tests only the
legacy `is_anomalous` flag), while the Gemini backend reports `true`
and count 1. -/
theorem gemma_ignores_new_flag_counterexample :
    gemma_analyze_screenshots_with_ocr
        [⟨"a.png", 1, "txt", "shots/a.png"⟩] [] "developer"
        (fun _ => "\x7b\"anomaly_detected\": true\x7d") =
      some (.obj [("results", .arr [.obj [("anomaly_detected", .bool true),
          ("screenshot_filename", .str "a.png"), ("screenshot_path", .str "shots/a.png")]]),
        ("overall_anomalous", .bool false),
        ("screenshot_count", .num 1),
        ("anomalous_screenshot_count", .num 0),
        ("role_analyzed", .str "developer")]) ∧
    gemini_analyze_screenshots_with_ocr
        [⟨"a.png", 1, "txt", "shots/a.png"⟩] [] "developer"
        (fun _ => "\x7b\"anomaly_detected\": true\x7d") =
      some (.obj [("results", .arr [.obj [("anomaly_detected", .bool true),
          ("screenshot_filename", .str "a.png")]]),
        ("overall_anomalous", .bool true),
        ("screenshot_count", .num 1),
        ("anomalous_screenshot_count", .num 1),
        ("role_analyzed", .str "developer")]) := by
  exact ⟨by with_unfolding_all decide, by with_unfolding_all decide⟩

/-- C10 counterexample: a JSON object with no `error` key whose
`anomalies` field is a number makes normalization raise a `TypeError`
(the `for` loop over a non-iterable) instead of returning a success
result. -/
theorem nonlist_anomalies_raises_counterexample :
    standardize_single_response (.obj [("anomalies", .num 5)])
        "developer" "2024-01-01T00:00:00Z" = none ∧
    Json.hasKey "error" (.obj [("anomalies", .num 5)]) = false := by
  exact ⟨by with_unfolding_all decide, by with_unfolding_all decide⟩


theorem extract_braceSpan_none {s : String} (h : braceSpan s = none) :
    extract_json_from_response s = .obj [("error", .str "No JSON found in model response")] := by
  simp only [extract_json_from_response, h]

theorem extract_braceSpan_some {s span : String} (h : braceSpan s = some span) :
    extract_json_from_response s =
      match json_loads span with
      | some v => v
      | none => .obj [("error", .str "Failed to parse JSON from model response")] := by
  simp only [extract_json_from_response, h]

theorem standardize_error_obj (m : Json) (role now : String) :
    standardize_single_response (.obj [("error", m)]) role now =
      some (.obj [("status", .str "error"), ("message", m)]) := by
  simp [standardize_single_response, pyContains, Json.lookup, List.lookup]

/-- C3 (amended): `extract_json_from_response` uses exactly one
strategy — parse the span from the first opening brace to the last
closing brace: the result depends only on that brace span, a string
without such a span yields the no-JSON error object, and a string with
one yields the parse of the span or the parse-failure error object.
No whole-string-first parse and no fenced-block detection exist. -/
theorem extract_uses_brace_span_only :
    (∀ s t : String, braceSpan s = braceSpan t →
      extract_json_from_response s = extract_json_from_response t) ∧
    (∀ s : String, braceSpan s = none →
      extract_json_from_response s = .obj [("error", .str "No JSON found in model response")]) ∧
    (∀ s span : String, braceSpan s = some span →
      extract_json_from_response s =
        match json_loads span with
        | some v => v
        | none => .obj [("error", .str "Failed to parse JSON from model response")]) := by
  refine ⟨?_, fun s h => extract_braceSpan_none h, fun s span h => extract_braceSpan_some h⟩
  intro s t h
  unfold extract_json_from_response
  rw [h]

theorem extract_uses_brace_span_only_witness :
    extract_json_from_response "x\x7b\"a\": 1\x7dy" = extract_json_from_response "\x7b\"a\": 1\x7d" ∧
    extract_json_from_response "no braces here" =
      .obj [("error", .str "No JSON found in model response")] ∧
    extract_json_from_response "ok: \x7b\"a\": 1\x7d" =
      (match json_loads "\x7b\"a\": 1\x7d" with
       | some v => v
       | none => .obj [("error", .str "Failed to parse JSON from model response")]) :=
  ⟨extract_uses_brace_span_only.1 "x\x7b\"a\": 1\x7dy" "\x7b\"a\": 1\x7d"
      (by with_unfolding_all decide),
   extract_uses_brace_span_only.2.1 "no braces here" (by with_unfolding_all decide),
   extract_uses_brace_span_only.2.2 "ok: \x7b\"a\": 1\x7d" "\x7b\"a\": 1\x7d"
      (by with_unfolding_all decide)⟩

/-- C7 (amended): whenever every extraction attempt fails (the brace
span is absent or unparseable), the extractor returns an error object
carrying only a diagnostic message — no `raw_response` field — and
normalization surfaces it as `{status: error, message}`; never a silent
empty success. -/
theorem extraction_failure_yields_message_only (s : String)
    (h : ∀ span, braceSpan s = some span → json_loads span = none) :
    ∃ m : String, extract_json_from_response s = .obj [("error", .str m)] ∧
      Json.hasKey "raw_response" (extract_json_from_response s) = false ∧
      ∀ role now, standardize_single_response (extract_json_from_response s) role now =
        some (.obj [("status", .str "error"), ("message", .str m)]) := by
  cases hbs : braceSpan s with
  | none =>
    have hx := extract_braceSpan_none hbs
    refine ⟨"No JSON found in model response", hx, ?_, ?_⟩
    · rw [hx]; decide
    · intro role now
      rw [hx]
      exact standardize_error_obj _ role now
  | some span =>
    have hx : extract_json_from_response s =
        .obj [("error", .str "Failed to parse JSON from model response")] := by
      rw [extract_braceSpan_some hbs, h span hbs]
    refine ⟨"Failed to parse JSON from model response", hx, ?_, ?_⟩
    · rw [hx]; decide
    · intro role now
      rw [hx]
      exact standardize_error_obj _ role now

theorem extraction_failure_yields_message_only_witness :
    ∃ m : String, extract_json_from_response "hello there" = .obj [("error", .str m)] ∧
      Json.hasKey "raw_response" (extract_json_from_response "hello there") = false ∧
      ∀ role now, standardize_single_response (extract_json_from_response "hello there") role now =
        some (.obj [("status", .str "error"), ("message", .str m)]) :=
  extraction_failure_yields_message_only "hello there"
    (by
      intro span hs
      rw [show braceSpan "hello there" = none from by with_unfolding_all decide] at hs
      cases hs)


/-- C5 (amended): confidence resolution precedence — an explicit
per-anomaly `confidence` is used as-is (regardless of any
`confidence_score`); otherwise a response-level numeric
`confidence_score` gives `min(max(score/100, 0), 1)`; otherwise the
case-insensitive severity mapping applies, with a missing severity
defaulting to `"Medium"` (0.75), not 0.5. -/
theorem confidence_precedence_resolution :
    (∀ (kvs : List (String × Json)) (resp v : Json),
        kvs.lookup "confidence" = some v →
        resolve_confidence (.obj kvs) resp = some v) ∧
    (∀ (kvs rkvs : List (String × Json)) (q : ℚ),
        kvs.lookup "confidence" = none →
        (kvs.lookup "severity" = none ∨ ∃ sv : String, kvs.lookup "severity" = some (.str sv)) →
        rkvs.lookup "confidence_score" = some (.num q) →
        resolve_confidence (.obj kvs) (.obj rkvs) =
          some (.num (min (max (q / 100) 0) 1))) ∧
    (∀ (kvs rkvs : List (String × Json)) (sv : String),
        kvs.lookup "confidence" = none →
        kvs.lookup "severity" = some (.str sv) →
        rkvs.lookup "confidence_score" = none →
        resolve_confidence (.obj kvs) (.obj rkvs) = some (.num (severity_to_confidence sv))) ∧
    (∀ (kvs rkvs : List (String × Json)),
        kvs.lookup "confidence" = none →
        kvs.lookup "severity" = none →
        rkvs.lookup "confidence_score" = none →
        resolve_confidence (.obj kvs) (.obj rkvs) = some (.num (75/100))) := by
  refine ⟨?_, ?_, ?_, ?_⟩
  · intro kvs resp v h
    simp [resolve_confidence, pyContains, pyGet, Json.lookup, h]
  · intro kvs rkvs q hc hsev hs
    rcases hsev with hsev | ⟨sv, hsev⟩ <;>
      simp [resolve_confidence, pyContains, pyGet, pyLower, pyNum?, Json.lookup,
        hc, hsev, hs]
  · intro kvs rkvs sv hc hsev hs
    simp [resolve_confidence, pyContains, pyGet, pyLower, pyNum?, Json.lookup,
      hc, hsev, hs, severity_to_confidence]
  · intro kvs rkvs hc hsev hs
    simp [resolve_confidence, pyContains, pyGet, pyLower, pyNum?, Json.lookup,
      hc, hsev, hs, strLower, lowerChar]

theorem confidence_precedence_resolution_witness :
    resolve_confidence (.obj [("confidence", .num 2)]) .null = some (.num 2) ∧
    resolve_confidence (.obj []) (.obj [("confidence_score", .num 150)]) =
      some (.num (min (max ((150 : ℚ) / 100) 0) 1)) ∧
    resolve_confidence (.obj [("severity", .str "High")]) (.obj []) =
      some (.num (severity_to_confidence "High")) ∧
    resolve_confidence (.obj []) (.obj []) = some (.num (75/100)) :=
  ⟨confidence_precedence_resolution.1 [("confidence", .num 2)] .null (.num 2)
      (by with_unfolding_all decide),
   confidence_precedence_resolution.2.1 [] [("confidence_score", .num 150)] 150
      (by with_unfolding_all decide) (Or.inl (by with_unfolding_all decide))
      (by with_unfolding_all decide),
   confidence_precedence_resolution.2.2.1 [("severity", .str "High")] [] "High"
      (by with_unfolding_all decide) (by with_unfolding_all decide)
      (by with_unfolding_all decide),
   confidence_precedence_resolution.2.2.2 [] [] (by with_unfolding_all decide)
      (by with_unfolding_all decide) (by with_unfolding_all decide)⟩


theorem standardize_obj_no_error (kvs : List (String × Json)) (role now : String)
    (hlk : kvs.lookup "error" = none) :
    standardize_single_response (.obj kvs) role now =
      (timestamp_from_filename (.obj kvs) now).bind fun ts =>
      (pyIter ((kvs.lookup "anomalies").getD (.arr []))).bind fun anomalies =>
      (optMapM (fun a => format_anomaly a (.obj kvs) ts) anomalies).bind fun formatted =>
      some (.obj [("status", .str "success"),
        ("analysis", .obj [
          ("anomaly_detected", (kvs.lookup "anomaly_detected").getD
            ((kvs.lookup "is_anomalous").getD (.bool false))),
          ("baseline_role", (kvs.lookup "baseline_role").getD (.str role)),
          ("anomalies", .arr formatted)])]) := by
  simp only [standardize_single_response, pyContains, Json.lookup, hlk, Option.isSome_none,
    Bool.false_eq_true, if_false, Option.bind_eq_bind, Option.some_bind, pyGet,
    Option.pure_def]


theorem standardize_obj_error (kvs : List (String × Json)) (m : Json) (role now : String)
    (hlk : kvs.lookup "error" = some m) :
    standardize_single_response (.obj kvs) role now =
      some (.obj [("status", .str "error"), ("message", m)]) := by
  simp [standardize_single_response, pyContains, Json.lookup, hlk]

/-- C10 (amended): when single-response normalization completes, its
result has error status exactly when the input carries an `error` key;
and there is no shape validation: an object with none of the expected
keys normalizes to exactly the default success result
`{status: success, analysis: {anomaly_detected: false, baseline_role:
role, anomalies: []}}`. (Ill-typed field values instead raise, per the
counterexample.) -/
theorem standardize_error_branch_iff_error_key :
    (∀ (resp : Json) (role now : String) (out : Json),
        standardize_single_response resp role now = some out →
        ((out.lookup "status" = some (.str "error")) ↔ Json.hasKey "error" resp = true)) ∧
    (∀ (kvs : List (String × Json)) (role now : String),
        (∀ k ∈ (["error", "screenshot_filename", "anomaly_detected", "is_anomalous",
                 "baseline_role", "anomalies"] : List String), kvs.lookup k = none) →
        standardize_single_response (.obj kvs) role now =
          some (.obj [("status", .str "success"),
            ("analysis", .obj [("anomaly_detected", .bool false),
              ("baseline_role", .str role), ("anomalies", .arr [])])])) := by
  constructor
  · intro resp role now out h
    cases resp with
    | null => simp [standardize_single_response, pyContains] at h
    | bool b => simp [standardize_single_response, pyContains] at h
    | num q => simp [standardize_single_response, pyContains] at h
    | str s =>
      by_cases hsub : strContainsSub s "error"
      · simp [standardize_single_response, pyContains, hsub, Json.lookup] at h
      · simp [standardize_single_response, pyContains, hsub, Json.lookup,
          timestamp_from_filename, pyGet] at h
    | arr xs =>
      by_cases hel : xs.any fun x => match x with | .str s => s == "error" | _ => false
      · simp [standardize_single_response, pyContains, hel, Json.lookup] at h
      · simp [standardize_single_response, pyContains, hel, Json.lookup,
          timestamp_from_filename, pyGet] at h
    | obj kvs =>
      cases hlk : kvs.lookup "error" with
      | some m =>
        have hx := standardize_obj_error kvs m role now hlk
        rw [hx] at h
        rw [← Option.some_inj.mp h]
        simp [Json.lookup, List.lookup, Json.hasKey, hlk]
      | none =>
        rw [standardize_obj_no_error kvs role now hlk] at h
        cases hts : timestamp_from_filename (.obj kvs) now with
        | none => rw [hts] at h; simp at h
        | some ts =>
          rw [hts] at h
          simp only [Option.some_bind] at h
          cases hpi : pyIter ((kvs.lookup "anomalies").getD (.arr [])) with
          | none => rw [hpi] at h; simp at h
          | some l =>
            rw [hpi] at h
            simp only [Option.some_bind] at h
            cases hmm : optMapM (fun a => format_anomaly a (.obj kvs) ts) l with
            | none => rw [hmm] at h; simp at h
            | some fa =>
              rw [hmm] at h
              simp only [Option.some_bind] at h
              rw [← Option.some_inj.mp h]
              simp [Json.lookup, List.lookup, Json.hasKey, hlk]
  · intro kvs role now hk
    have h1 : kvs.lookup "error" = none := hk "error" (by decide)
    have h2 : kvs.lookup "screenshot_filename" = none := hk "screenshot_filename" (by decide)
    have h3 : kvs.lookup "anomaly_detected" = none := hk "anomaly_detected" (by decide)
    have h4 : kvs.lookup "is_anomalous" = none := hk "is_anomalous" (by decide)
    have h5 : kvs.lookup "baseline_role" = none := hk "baseline_role" (by decide)
    have h6 : kvs.lookup "anomalies" = none := hk "anomalies" (by decide)
    rw [standardize_obj_no_error kvs role now h1]
    simp [timestamp_from_filename, pyGet, Json.lookup, h2, h3, h4, h5, h6, pyStr?,
      findTsMatch, pyIter, optMapM]


theorem standardize_error_branch_iff_error_key_witness :
    (((Json.obj [("status", .str "error"), ("message", .str "quota")]).lookup "status" =
        some (.str "error")) ↔
      Json.hasKey "error" (.obj [("error", .str "quota")]) = true) ∧
    standardize_single_response (.obj [("foo", .str "bar")]) "developer" "2024-01-01T00:00:00Z" =
      some (.obj [("status", .str "success"),
        ("analysis", .obj [("anomaly_detected", .bool false),
          ("baseline_role", .str "developer"), ("anomalies", .arr [])])]) :=
  ⟨standardize_error_branch_iff_error_key.1 (.obj [("error", .str "quota")])
      "developer" "2024-01-01T00:00:00Z"
      (.obj [("status", .str "error"), ("message", .str "quota")])
      (by with_unfolding_all decide),
   standardize_error_branch_iff_error_key.2 [("foo", .str "bar")]
      "developer" "2024-01-01T00:00:00Z" (by decide)⟩


theorem roundHalfEven_nonneg {x : ℚ} (hx : 0 ≤ x) : 0 ≤ roundHalfEven x := by
  unfold roundHalfEven
  dsimp only
  have hf : (0 : ℤ) ≤ ⌊x⌋ := Int.floor_nonneg.mpr hx
  split
  · exact hf
  · split
    · omega
    · split <;> omega

theorem roundHalfEven_le {x : ℚ} {B : ℤ} (hx : x ≤ (B : ℚ)) : roundHalfEven x ≤ B := by
  unfold roundHalfEven
  dsimp only
  have hfl : ⌊x⌋ ≤ B := by
    have := Int.floor_le_floor hx
    simpa using this
  split
  · exact hfl
  · rename_i hlt
    push_neg at hlt
    have hstrict : (⌊x⌋ : ℚ) < x := by
      have h2 : (0 : ℚ) < 1/2 := by norm_num
      nlinarith [Int.floor_le x]
    have : ⌊x⌋ < B := by
      have hxB : (⌊x⌋ : ℚ) < (B : ℚ) := lt_of_lt_of_le hstrict hx
      exact_mod_cast hxB
    split
    · omega
    · split <;> omega

theorem pyRound2_two_decimal (x : ℚ) : ∃ n : ℤ, pyRound2 x = (n : ℚ) / 100 :=
  ⟨roundHalfEven (x * 100), rfl⟩

theorem pyRound2_mem_unit {x : ℚ} (h0 : 0 ≤ x) (h1 : x ≤ 1) :
    0 ≤ pyRound2 x ∧ pyRound2 x ≤ 1 := by
  unfold pyRound2
  constructor
  · apply div_nonneg _ (by norm_num)
    exact_mod_cast roundHalfEven_nonneg (by positivity)
  · rw [div_le_one (by norm_num)]
    have : roundHalfEven (x * 100) ≤ (100 : ℤ) := roundHalfEven_le (by push_cast; nlinarith)
    exact_mod_cast this

theorem optMapM_mem {β : Type} {f : Json → Option β} :
    ∀ {l : List Json} {r : List β}, optMapM f l = some r →
      ∀ b ∈ r, ∃ x ∈ l, f x = some b
  | [], r, h => by
    simp [optMapM] at h
    subst h
    intro b hb
    cases hb
  | x :: xs, r, h => by
    simp only [optMapM, Option.bind_eq_bind, Option.pure_def] at h
    cases hx : f x with
    | none => rw [hx] at h; simp at h
    | some y =>
      rw [hx] at h
      simp only [Option.some_bind] at h
      cases hxs : optMapM f xs with
      | none => rw [hxs] at h; simp at h
      | some ys =>
        rw [hxs] at h
        simp only [Option.some_bind, Option.some_inj] at h
        subst h
        intro b hb
        rcases List.mem_cons.mp hb with hb | hb
        · exact ⟨x, List.mem_cons_self x xs, hb ▸ hx⟩
        · obtain ⟨x2, hx2, hfx2⟩ := optMapM_mem hxs b hb
          exact ⟨x2, List.mem_cons_of_mem x hx2, hfx2⟩


theorem resolve_confidence_obj {anomaly resp c : Json}
    (hc : resolve_confidence anomaly resp = some c) :
    ∃ kvs, anomaly = .obj kvs := by
  cases anomaly with
  | obj kvs => exact ⟨kvs, rfl⟩
  | null => simp [resolve_confidence, pyContains] at hc
  | bool b => simp [resolve_confidence, pyContains] at hc
  | num q => simp [resolve_confidence, pyContains] at hc
  | str s =>
    by_cases hsub : strContainsSub s "confidence" <;>
      simp [resolve_confidence, pyContains, pyGet, hsub] at hc
  | arr xs =>
    by_cases hel : xs.any fun x => match x with | .str t => t == "confidence" | _ => false <;>
      simp [resolve_confidence, pyContains, pyGet, hel] at hc

theorem resolve_confidence_no_explicit_range {anomaly resp c : Json}
    (hc : resolve_confidence anomaly resp = some c)
    (hnc : Json.hasKey "confidence" anomaly = false) :
    ∃ q : ℚ, c = .num q ∧ 0 ≤ q ∧ q ≤ 1 := by
  obtain ⟨kvs, rfl⟩ := resolve_confidence_obj hc
  have hlk : kvs.lookup "confidence" = none := by
    cases hv : kvs.lookup "confidence" with
    | none => rfl
    | some v => rw [Json.hasKey, Json.lookup, hv] at hnc; simp at hnc
  rw [resolve_confidence] at hc
  simp only [pyContains, Json.lookup, hlk, Option.isNone_none, Option.isSome_none,
    Option.bind_eq_bind, Option.some_bind, Bool.false_eq_true, if_false, pyGet,
    Option.pure_def] at hc
  cases hsv : (kvs.lookup "severity").getD (.str "Medium") with
  | str sv =>
    rw [hsv] at hc
    simp only [pyLower, Option.some_bind] at hc
    cases resp with
    | obj rkvs =>
      simp only [pyContains, Json.lookup, Option.some_bind] at hc
      by_cases hsc : (rkvs.lookup "confidence_score").isSome
      · simp only [hsc, if_true, pyGet, Option.some_bind] at hc
        cases hn : pyNum? ((rkvs.lookup "confidence_score").getD (.num 50)) with
        | none => rw [hn] at hc; simp at hc
        | some sq =>
          rw [hn] at hc
          simp only [Option.some_bind, Option.some_inj] at hc
          refine ⟨_, hc.symm, ?_, ?_⟩
          · have h1 : (0:ℚ) ≤ max (sq / 100) 0 := le_max_right _ _
            exact le_min h1 zero_le_one
          · exact min_le_right _ _
      · simp only [hsc, Bool.false_eq_true, if_false, Option.some_inj] at hc
        refine ⟨_, hc.symm, ?_⟩
        constructor <;> split_ifs <;> norm_num
    | null => simp [pyContains] at hc
    | bool b => simp [pyContains] at hc
    | num q => simp [pyContains] at hc
    | str s =>
      simp only [pyContains, Option.some_bind] at hc
      by_cases hsc : strContainsSub s "confidence_score"
      · simp [hsc, pyGet] at hc
      · simp only [hsc, Bool.false_eq_true, if_false, Option.some_inj] at hc
        refine ⟨_, hc.symm, ?_⟩
        constructor <;> split_ifs <;> norm_num
    | arr xs =>
      simp only [pyContains, Option.some_bind] at hc
      by_cases hsc : xs.any fun x => match x with | .str t => t == "confidence_score" | _ => false
      · simp [hsc, pyGet] at hc
      · simp only [hsc, Bool.false_eq_true, if_false, Option.some_inj] at hc
        refine ⟨_, hc.symm, ?_⟩
        constructor <;> split_ifs <;> norm_num
  | null => rw [hsv] at hc; simp [pyLower] at hc
  | bool b => rw [hsv] at hc; simp [pyLower] at hc
  | num q => rw [hsv] at hc; simp [pyLower] at hc
  | arr xs => rw [hsv] at hc; simp [pyLower] at hc
  | obj okvs => rw [hsv] at hc; simp [pyLower] at hc


theorem format_anomaly_eq {anomaly resp : Json} {ts : String} {a : Json}
    (h : format_anomaly anomaly resp ts = some a) :
    ∃ (c : Json) (cq : ℚ), resolve_confidence anomaly resp = some c ∧
      pyFloat c = some cq ∧ a.lookup "confidence" = some (.num (pyRound2 cq)) := by
  rw [format_anomaly] at h
  cases hrc : resolve_confidence anomaly resp with
  | none => rw [hrc] at h; simp at h
  | some c =>
    rw [hrc] at h
    simp only [Option.bind_eq_bind, Option.some_bind, Option.pure_def] at h
    cases hty : pyGet anomaly "type" (.str "Unknown") with
    | none => rw [hty] at h; simp at h
    | some ty =>
      rw [hty] at h
      simp only [Option.some_bind] at h
      cases hex : pyGet anomaly "explanation" (.str "No explanation provided") with
      | none => rw [hex] at h; simp at h
      | some ex =>
        rw [hex] at h
        simp only [Option.some_bind] at h
        cases hcf : pyFloat c with
        | none => rw [hcf] at h; simp at h
        | some cq =>
          rw [hcf] at h
          simp only [Option.some_bind, Option.some_inj] at h
          exact ⟨c, cq, rfl, hcf, by rw [← h]; simp [Json.lookup, List.lookup]⟩

/-- C4 (amended): every confidence produced by single-response
normalization is `round(·, 2)`-shaped (an integer number of hundredths),
and whenever no anomaly of the response carries an explicit `confidence`
field, every produced confidence also lies in `[0, 1]` (severity-derived
values and clamped `confidence_score` values); explicit confidence
fields are rounded but not clamped. -/
theorem confidences_rounded_and_derived_in_range
    (resp : Json) (role now : String) (out : Json)
    (h : standardize_single_response resp role now = some out)
    (a : Json) (ha : a ∈ analysis_anomalies out) :
    ∃ c : ℚ, a.lookup "confidence" = some (.num c) ∧
      (∃ n : ℤ, c = (n : ℚ) / 100) ∧
      (no_explicit_confidence resp → 0 ≤ c ∧ c ≤ 1) := by
  cases resp with
  | null => simp [standardize_single_response, pyContains] at h
  | bool b => simp [standardize_single_response, pyContains] at h
  | num q => simp [standardize_single_response, pyContains] at h
  | str s =>
    by_cases hsub : strContainsSub s "error"
    · simp [standardize_single_response, pyContains, hsub, Json.lookup] at h
    · simp [standardize_single_response, pyContains, hsub, Json.lookup,
        timestamp_from_filename, pyGet] at h
  | arr xs =>
    by_cases hel : xs.any fun x => match x with | .str t => t == "error" | _ => false
    · simp [standardize_single_response, pyContains, hel, Json.lookup] at h
    · simp [standardize_single_response, pyContains, hel, Json.lookup,
        timestamp_from_filename, pyGet] at h
  | obj kvs =>
    cases hlk : kvs.lookup "error" with
    | some m =>
      rw [standardize_obj_error kvs m role now hlk] at h
      rw [← Option.some_inj.mp h] at ha
      simp [analysis_anomalies, Json.lookup, List.lookup] at ha
    | none =>
      rw [standardize_obj_no_error kvs role now hlk] at h
      cases hts : timestamp_from_filename (.obj kvs) now with
      | none => rw [hts] at h; simp at h
      | some ts =>
        rw [hts] at h
        simp only [Option.some_bind] at h
        cases hpi : pyIter ((kvs.lookup "anomalies").getD (.arr [])) with
        | none => rw [hpi] at h; simp at h
        | some l =>
          rw [hpi] at h
          simp only [Option.some_bind] at h
          cases hmm : optMapM (fun x => format_anomaly x (.obj kvs) ts) l with
          | none => rw [hmm] at h; simp at h
          | some fa =>
            rw [hmm] at h
            simp only [Option.some_bind] at h
            rw [← Option.some_inj.mp h] at ha
            have hfa : a ∈ fa := by
              simpa [analysis_anomalies, Json.lookup, List.lookup] using ha
            obtain ⟨src, hsrc, hfmt⟩ := optMapM_mem hmm a hfa
            obtain ⟨c0, cq, hrc, hcf, hcl⟩ := format_anomaly_eq hfmt
            refine ⟨pyRound2 cq, hcl, pyRound2_two_decimal cq, ?_⟩
            intro hne
            have hsrc_in : src ∈ input_anomalies (.obj kvs) := by
              cases han : kvs.lookup "anomalies" with
              | none =>
                rw [han] at hpi
                simp only [Option.getD_none, pyIter, Option.some_inj] at hpi
                subst hpi
                cases hsrc
              | some av =>
                rw [han] at hpi
                cases av with
                | arr axs =>
                  simp only [Option.getD_some, pyIter, Option.some_inj] at hpi
                  subst hpi
                  simpa [input_anomalies, Json.lookup, han] using hsrc
                | str s2 =>
                  simp only [Option.getD_some, pyIter, Option.some_inj] at hpi
                  subst hpi
                  obtain ⟨ch, _, rfl⟩ := List.mem_map.mp hsrc
                  obtain ⟨kvs2, hk2⟩ := resolve_confidence_obj hrc
                  cases hk2
                | obj okvs =>
                  simp only [Option.getD_some, pyIter, Option.some_inj] at hpi
                  subst hpi
                  obtain ⟨kv, _, rfl⟩ := List.mem_map.mp hsrc
                  obtain ⟨kvs2, hk2⟩ := resolve_confidence_obj hrc
                  cases hk2
                | null => simp [pyIter] at hpi
                | bool b2 => simp [pyIter] at hpi
                | num q2 => simp [pyIter] at hpi
            have hnc : Json.hasKey "confidence" src = false := hne src hsrc_in
            obtain ⟨q, hq, hq0, hq1⟩ := resolve_confidence_no_explicit_range hrc hnc
            rw [hq] at hcf
            simp only [pyFloat, Option.some_inj] at hcf
            rw [← hcf]
            exact pyRound2_mem_unit hq0 hq1


theorem confidences_rounded_and_derived_in_range_witness :
    ∃ c : ℚ,
      (Json.obj [("type", .str "Unknown"), ("explanation", .str "No explanation provided"),
        ("confidence", .num (95/100)), ("timestamp", .str "T")]).lookup "confidence" =
        some (.num c) ∧
      (∃ n : ℤ, c = (n : ℚ) / 100) ∧
      (no_explicit_confidence (.obj [("anomalies", .arr [.obj [("severity", .str "high")]])]) →
        0 ≤ c ∧ c ≤ 1) :=
  confidences_rounded_and_derived_in_range
    (.obj [("anomalies", .arr [.obj [("severity", .str "high")]])]) "developer" "T"
    (.obj [("status", .str "success"),
      ("analysis", .obj [("anomaly_detected", .bool false),
        ("baseline_role", .str "developer"),
        ("anomalies", .arr [.obj [("type", .str "Unknown"),
          ("explanation", .str "No explanation provided"),
          ("confidence", .num (95/100)), ("timestamp", .str "T")]])])])
    (by with_unfolding_all decide)
    (.obj [("type", .str "Unknown"), ("explanation", .str "No explanation provided"),
      ("confidence", .num (95/100)), ("timestamp", .str "T")])
    (by with_unfolding_all decide)


theorem optMapM_append {β : Type} (f : Json → Option β) :
    ∀ (l1 l2 : List Json), optMapM f (l1 ++ l2) =
      (optMapM f l1).bind fun a => (optMapM f l2).bind fun b => some (a ++ b)
  | [], l2 => by
    cases h : optMapM f l2 <;> simp [optMapM, h]
  | x :: xs, l2 => by
    rw [List.cons_append]
    cases hx : f x with
    | none => simp [optMapM, hx]
    | some y =>
      simp only [optMapM, hx, optMapM_append f xs l2, Option.bind_eq_bind,
        Option.some_bind, Option.pure_def]
      cases hxs : optMapM f xs with
      | none => simp
      | some a =>
        simp only [Option.some_bind]
        cases h2 : optMapM f l2 <;> simp

theorem process_batch_result_unflagged {kvs : List (String × Json)} (now : String)
    (hf1 : legacy_flagged (.obj kvs) = false)
    (hf2 : (Json.getD (.obj kvs) "anomaly_detected" (.bool false)).truthy = false) :
    process_batch_result (.obj kvs) now = some [] := by
  rw [legacy_flagged] at hf1
  simp [process_batch_result, pyGet, Json.getD, Json.lookup] at hf1 hf2 ⊢
  simp [hf1, hf2]

theorem format_batch_eq (rs : List Json) (ov : Json) (sc ac : ℚ) (ra now : String) :
    format_standardized_output (mk_batch_results rs ov sc ac ra) now =
      (optMapM (fun r => process_batch_result r now) rs).bind fun chunks =>
        some (.obj [("status", .str "success"),
          ("analysis", .obj [
            ("anomaly_detected", ov),
            ("baseline_role", .str ra),
            ("anomalies", .arr chunks.flatten)])]) := by
  simp [format_standardized_output, mk_batch_results, pyContains, Json.lookup,
    List.lookup, pyGet, pyIter]


/-- C6: batch normalization (the `results` branch of
`format_standardized_output`) (i) sets the batch-level `anomaly_detected`
verbatim from the input's `overall_anomalous` flag, and (ii) a
per-screenshot result that is flagged anomalous by neither
`anomaly_detected` nor the legacy `is_anomalous` contributes nothing: it
can be removed from the batch without changing the output. -/
theorem batch_filters_unflagged_and_sources_overall_flag :
    (∀ (rs : List Json) (ov : Json) (sc ac : ℚ) (ra now : String) (out : Json),
        format_standardized_output (mk_batch_results rs ov sc ac ra) now = some out →
        analysis_anomaly_detected out = some ov) ∧
    (∀ (rs1 rs2 : List Json) (kvs : List (String × Json)) (ov : Json) (sc ac : ℚ)
        (ra now : String),
        legacy_flagged (.obj kvs) = false →
        (Json.getD (.obj kvs) "anomaly_detected" (.bool false)).truthy = false →
        format_standardized_output (mk_batch_results (rs1 ++ .obj kvs :: rs2) ov sc ac ra) now =
          format_standardized_output (mk_batch_results (rs1 ++ rs2) ov sc ac ra) now) := by
  constructor
  · intro rs ov sc ac ra now out h
    rw [format_batch_eq] at h
    cases hmm : optMapM (fun r => process_batch_result r now) rs with
    | none => rw [hmm] at h; simp at h
    | some chunks =>
      rw [hmm] at h
      simp only [Option.some_bind, Option.some_inj] at h
      rw [← h]
      simp [analysis_anomaly_detected, Json.lookup, List.lookup]
  · intro rs1 rs2 kvs ov sc ac ra now hf1 hf2
    rw [format_batch_eq, format_batch_eq]
    rw [optMapM_append, optMapM_append]
    cases h1 : optMapM (fun r => process_batch_result r now) rs1 with
    | none => simp
    | some c1 =>
      simp only [Option.some_bind]
      rw [show optMapM (fun r => process_batch_result r now) (Json.obj kvs :: rs2) =
          (process_batch_result (.obj kvs) now).bind fun y =>
            (optMapM (fun r => process_batch_result r now) rs2).bind fun ys =>
              some (y :: ys) from rfl]
      rw [process_batch_result_unflagged now hf1 hf2]
      simp only [Option.some_bind]
      cases h2 : optMapM (fun r => process_batch_result r now) rs2 with
      | none => simp
      | some c2 => simp

theorem batch_filters_unflagged_and_sources_overall_flag_witness :
    analysis_anomaly_detected
      (.obj [("status", .str "success"),
        ("analysis", .obj [("anomaly_detected", .bool true),
          ("baseline_role", .str "developer"),
          ("anomalies", .arr [.obj [("type", .str "X"), ("explanation", .str "E"),
            ("confidence", .num (9/10)), ("timestamp", .str "T")]])])]) =
        some (.bool true) ∧
    format_standardized_output
        (mk_batch_results
          [Json.obj [("anomaly_detected", .bool true),
            ("anomalies", .arr [.obj [("type", .str "X"), ("explanation", .str "E"),
              ("confidence", .num (9/10))]])],
           Json.obj [("anomaly_detected", .bool false),
            ("anomalies", .arr [.obj [("type", .str "Y"), ("explanation", .str "F"),
              ("confidence", .num (8/10))]])]]
          (.bool true) 2 1 "developer") "T" =
      format_standardized_output
        (mk_batch_results
          [Json.obj [("anomaly_detected", .bool true),
            ("anomalies", .arr [.obj [("type", .str "X"), ("explanation", .str "E"),
              ("confidence", .num (9/10))]])]]
          (.bool true) 2 1 "developer") "T" :=
  ⟨batch_filters_unflagged_and_sources_overall_flag.1
      [Json.obj [("anomaly_detected", .bool true),
        ("anomalies", .arr [.obj [("type", .str "X"), ("explanation", .str "E"),
          ("confidence", .num (9/10))]])],
       Json.obj [("anomaly_detected", .bool false),
        ("anomalies", .arr [.obj [("type", .str "Y"), ("explanation", .str "F"),
          ("confidence", .num (8/10))]])]]
      (.bool true) 2 1 "developer" "T"
      (.obj [("status", .str "success"),
        ("analysis", .obj [("anomaly_detected", .bool true),
          ("baseline_role", .str "developer"),
          ("anomalies", .arr [.obj [("type", .str "X"), ("explanation", .str "E"),
            ("confidence", .num (9/10)), ("timestamp", .str "T")]])])])
      (by with_unfolding_all decide),
   batch_filters_unflagged_and_sources_overall_flag.2
      [Json.obj [("anomaly_detected", .bool true),
        ("anomalies", .arr [.obj [("type", .str "X"), ("explanation", .str "E"),
          ("confidence", .num (9/10))]])]]
      []
      [("anomaly_detected", .bool false),
       ("anomalies", .arr [.obj [("type", .str "Y"), ("explanation", .str "F"),
         ("confidence", .num (8/10))]])]
      (.bool true) 2 1 "developer" "T"
      (by with_unfolding_all decide) (by with_unfolding_all decide)⟩


theorem gemma_flag_some {r : Json} {b : Bool} (h : gemma_flag r = some b) :
    b = legacy_flagged r := by
  cases r with
  | obj kvs =>
    simp [gemma_flag, pyGet, Json.getD, Json.lookup] at h
    simp [legacy_flagged, Json.getD, Json.lookup, h]
  | null => simp [gemma_flag, pyGet] at h
  | bool b2 => simp [gemma_flag, pyGet] at h
  | num q => simp [gemma_flag, pyGet] at h
  | str s2 => simp [gemma_flag, pyGet] at h
  | arr xs => simp [gemma_flag, pyGet] at h

theorem gemini_flag_some {r : Json} {b : Bool} (h : gemini_flag r = some b) :
    b = either_flagged r := by
  cases r with
  | obj kvs =>
    by_cases h1 : ((kvs.lookup "is_anomalous").getD (.bool false)).truthy
    · simp [gemini_flag, pyGet, Json.getD, Json.lookup, h1] at h
      simp [either_flagged, legacy_flagged, Json.getD, Json.lookup, h1, ← h]
    · simp [gemini_flag, pyGet, Json.getD, Json.lookup, h1] at h
      simp [either_flagged, legacy_flagged, Json.getD, Json.lookup, h1, ← h]
  | null => simp [gemini_flag, pyGet] at h
  | bool b2 => simp [gemini_flag, pyGet] at h
  | num q => simp [gemini_flag, pyGet] at h
  | str s2 => simp [gemini_flag, pyGet] at h
  | arr xs => simp [gemini_flag, pyGet] at h

theorem optFoldlShots_batch_some (f : ScreenshotData → Json) (flagO : Json → Option Bool)
    (flagB : Json → Bool) (hflag : ∀ r b, flagO r = some b → b = flagB r) :
    ∀ {l : List ScreenshotData} {acc res : List Json × Bool},
      optFoldlShots (fun acc s =>
          (flagO (f s)).bind fun flag => some (acc.1 ++ [f s], acc.2 || flag)) acc l =
        some res →
      res = (acc.1 ++ l.map f, acc.2 || (l.map f).any flagB)
  | [], acc, res, h => by
    simp only [optFoldlShots, Option.some_inj] at h
    simp [← h]
  | s :: l, acc, res, h => by
    rw [optFoldlShots] at h
    simp only [Option.bind_eq_bind] at h
    cases hfl : flagO (f s) with
    | none => rw [hfl] at h; simp at h
    | some b =>
      rw [hfl] at h
      simp only [Option.some_bind] at h
      have hres := optFoldlShots_batch_some f flagO flagB hflag h
      rw [hres, hflag _ _ hfl]
      simp [List.any_cons, Bool.or_assoc]

theorem count_flagged_some (flagO : Json → Option Bool) (flagB : Json → Bool)
    (hflag : ∀ r b, flagO r = some b → b = flagB r) :
    ∀ {rs : List Json} {n0 n : ℕ},
      optFoldl (fun n r =>
        (flagO r).bind fun b => some (n + if b then 1 else 0)) n0 rs = some n →
      n = n0 + rs.countP flagB
  | [], n0, n, h => by
    simp only [optFoldl, Option.some_inj] at h
    simp [← h]
  | r :: rs, n0, n, h => by
    rw [optFoldl] at h
    simp only [Option.bind_eq_bind] at h
    cases hfl : flagO r with
    | none => rw [hfl] at h; simp at h
    | some b =>
      rw [hfl] at h
      simp only [Option.some_bind] at h
      have hres := count_flagged_some flagO flagB hflag h
      rw [hres, hflag _ _ hfl]
      rw [List.countP_cons]
      rcases Bool.eq_false_or_eq_true (flagB r) with hb | hb
      · simp only [hb, if_true]
        omega
      · simp [hb]


/-- C8 (amended): whenever batch analysis completes, the Gemini backend
sets `overall_anomalous` to the OR over per-screenshot results of
(`is_anomalous` or `anomaly_detected`) and counts exactly those results;
the Gemma backend instead tests only the legacy `is_anomalous` flag for
both the overall flag and the count. -/
theorem batch_overall_flag_semantics :
    (∀ (screenshots : List ScreenshotData) (csv : CsvData) (role : String)
        (callModel : String → String) (out : Json),
        gemma_analyze_screenshots_with_ocr screenshots csv role callModel = some out →
        out = mk_batch_results
          (screenshots.map fun s => gemma_analyze_screenshot_ocr s csv role callModel)
          (.bool ((screenshots.map fun s =>
            gemma_analyze_screenshot_ocr s csv role callModel).any legacy_flagged))
          (screenshots.length : ℚ)
          (((screenshots.map fun s =>
            gemma_analyze_screenshot_ocr s csv role callModel).countP legacy_flagged : ℕ) : ℚ)
          role) ∧
    (∀ (screenshots : List ScreenshotData) (csv : CsvData) (role : String)
        (callModel : String → String) (out : Json),
        gemini_analyze_screenshots_with_ocr screenshots csv role callModel = some out →
        out = mk_batch_results
          (screenshots.map fun s => gemini_analyze_screenshot_ocr s csv role callModel)
          (.bool ((screenshots.map fun s =>
            gemini_analyze_screenshot_ocr s csv role callModel).any either_flagged))
          (screenshots.length : ℚ)
          (((screenshots.map fun s =>
            gemini_analyze_screenshot_ocr s csv role callModel).countP either_flagged : ℕ) : ℚ)
          role) := by
  constructor
  · intro screenshots csv role callModel out h
    rw [gemma_analyze_screenshots_with_ocr] at h
    simp only [Option.bind_eq_bind] at h
    obtain ⟨acc, hfold, h2⟩ := Option.bind_eq_some.mp h
    simp only [Option.pure_def] at hfold
    have hacc := optFoldlShots_batch_some
      (fun s => gemma_analyze_screenshot_ocr s csv role callModel) gemma_flag legacy_flagged
      (fun r b hh => gemma_flag_some hh) hfold
    subst hacc
    simp only [List.nil_append, Bool.false_or] at h2
    obtain ⟨cnt, hcnt, h3⟩ := Option.bind_eq_some.mp h2
    rw [count_flagged] at hcnt
    simp only [Option.pure_def] at hcnt
    have hc := count_flagged_some gemma_flag legacy_flagged
      (fun r b hh => gemma_flag_some hh) hcnt
    simp only [Nat.zero_add] at hc
    subst hc
    simp only [Option.pure_def, Option.some_inj] at h3
    rw [← h3, mk_batch_results]
  · intro screenshots csv role callModel out h
    rw [gemini_analyze_screenshots_with_ocr] at h
    simp only [Option.bind_eq_bind] at h
    obtain ⟨acc, hfold, h2⟩ := Option.bind_eq_some.mp h
    simp only [Option.pure_def] at hfold
    have hacc := optFoldlShots_batch_some
      (fun s => gemini_analyze_screenshot_ocr s csv role callModel) gemini_flag either_flagged
      (fun r b hh => gemini_flag_some hh) hfold
    subst hacc
    simp only [List.nil_append, Bool.false_or] at h2
    obtain ⟨cnt, hcnt, h3⟩ := Option.bind_eq_some.mp h2
    rw [count_flagged] at hcnt
    simp only [Option.pure_def] at hcnt
    have hc := count_flagged_some gemini_flag either_flagged
      (fun r b hh => gemini_flag_some hh) hcnt
    simp only [Nat.zero_add] at hc
    subst hc
    simp only [Option.pure_def, Option.some_inj] at h3
    rw [← h3, mk_batch_results]


theorem batch_overall_flag_semantics_witness :
    (Json.obj [("results", .arr [.obj [("anomaly_detected", .bool true),
        ("screenshot_filename", .str "a.png"), ("screenshot_path", .str "shots/a.png")]]),
      ("overall_anomalous", .bool false),
      ("screenshot_count", .num 1),
      ("anomalous_screenshot_count", .num 0),
      ("role_analyzed", .str "developer")]) =
      mk_batch_results
        (([⟨"a.png", 1, "txt", "shots/a.png"⟩] : List ScreenshotData).map fun s =>
          gemma_analyze_screenshot_ocr s [] "developer"
            (fun _ => "\x7b\"anomaly_detected\": true\x7d"))
        (.bool ((([⟨"a.png", 1, "txt", "shots/a.png"⟩] : List ScreenshotData).map fun s =>
          gemma_analyze_screenshot_ocr s [] "developer"
            (fun _ => "\x7b\"anomaly_detected\": true\x7d")).any legacy_flagged))
        (([⟨"a.png", 1, "txt", "shots/a.png"⟩] : List ScreenshotData).length : ℚ)
        ((((([⟨"a.png", 1, "txt", "shots/a.png"⟩] : List ScreenshotData).map fun s =>
          gemma_analyze_screenshot_ocr s [] "developer"
            (fun _ => "\x7b\"anomaly_detected\": true\x7d")).countP legacy_flagged : ℕ)) : ℚ)
        "developer" ∧
    (Json.obj [("results", .arr [.obj [("anomaly_detected", .bool true),
        ("screenshot_filename", .str "a.png")]]),
      ("overall_anomalous", .bool true),
      ("screenshot_count", .num 1),
      ("anomalous_screenshot_count", .num 1),
      ("role_analyzed", .str "developer")]) =
      mk_batch_results
        (([⟨"a.png", 1, "txt", "shots/a.png"⟩] : List ScreenshotData).map fun s =>
          gemini_analyze_screenshot_ocr s [] "developer"
            (fun _ => "\x7b\"anomaly_detected\": true\x7d"))
        (.bool ((([⟨"a.png", 1, "txt", "shots/a.png"⟩] : List ScreenshotData).map fun s =>
          gemini_analyze_screenshot_ocr s [] "developer"
            (fun _ => "\x7b\"anomaly_detected\": true\x7d")).any either_flagged))
        (([⟨"a.png", 1, "txt", "shots/a.png"⟩] : List ScreenshotData).length : ℚ)
        ((((([⟨"a.png", 1, "txt", "shots/a.png"⟩] : List ScreenshotData).map fun s =>
          gemini_analyze_screenshot_ocr s [] "developer"
            (fun _ => "\x7b\"anomaly_detected\": true\x7d")).countP either_flagged : ℕ)) : ℚ)
        "developer" :=
  ⟨batch_overall_flag_semantics.1 [⟨"a.png", 1, "txt", "shots/a.png"⟩] [] "developer"
      (fun _ => "\x7b\"anomaly_detected\": true\x7d") _ (by with_unfolding_all decide),
   batch_overall_flag_semantics.2 [⟨"a.png", 1, "txt", "shots/a.png"⟩] [] "developer"
      (fun _ => "\x7b\"anomaly_detected\": true\x7d") _ (by with_unfolding_all decide)⟩

end Prodmon
